import Mathlib

/-!
Shallow embedding of `src/main.py` of the data-lakehouse-optimizer service.

The service is an asynchronous task API: `create_task` (POST /new) inserts a
`RUNNING` entry into the in-memory dict `tasks` and spawns `hf_optimize` in a
background thread; `get_status` (GET /status) and `get_result` (GET /getresult)
read the dict.  `hf_optimize` builds a prompt, calls the Hugging Face endpoint,
parses/validates the generated JSON and writes a terminal state back.

External library effects are embedded as explicit inputs:
  * `os.getenv("HF_TOKEN")` becomes an `Option String` argument;
  * `requests.post` becomes an oracle `String → Except String UpstreamResponse`
    (it receives the prompt; `.error` models a raised `requests` exception; an
    `UpstreamResponse` carries `status_code`, `text` and the already-decoded
    `response.json()` body, `none` meaning `.json()` raised);
  * `json.loads` becomes an oracle `parse : String → Except String Json`
    (`.error` carries the `JSONDecodeError` text).
The Python dict `tasks` is embedded as an association list with dict-assignment
semantics; mutation of `tasks[task_id]` is explicit state passing, and a
`tasks[task_id]` access on a missing key (a `KeyError` that would escape the
runner) is an `Option`-level `none`.
-/

namespace LakehouseOpt

/-- Values produced by Python's `json.loads` (numbers collapsed to `Int`;
floating point numbers do not occur in any property considered here). -/
inductive Json where
  | null : Json
  | bool (b : Bool) : Json
  | num (n : Int) : Json
  | str (s : String) : Json
  | arr (elems : List Json) : Json
  | obj (fields : List (String × Json)) : Json

/-- Pydantic model `DDLStatement` (src/main.py line 24). -/
structure DDLStatement where
  statement : String
deriving DecidableEq

/-- Pydantic model `QueryItem` (src/main.py line 27). -/
structure QueryItem where
  queryid : String
  query : String
  runquantity : Int
deriving DecidableEq

/-- Pydantic model `NewTaskRequest` (src/main.py line 32). -/
structure NewTaskRequest where
  url : String
  ddl : List DDLStatement
  queries : List QueryItem
deriving DecidableEq

/-- One entry of the `tasks` dict: `{"status": ..., "result": ...}`
(src/main.py line 52).  `result = none` is Python `None`. -/
structure TaskEntry where
  status : String
  result : Option Json

/-- The global `tasks` dict (src/main.py line 21), as an association list with
Python-dict assignment/lookup semantics. -/
abbrev TaskStore := List (String × TaskEntry)

/-- What the code observes of a `requests.Response`: `status_code`, `text`, and
the decoded `response.json()` body (`none` when `.json()` would raise). -/
structure UpstreamResponse where
  status_code : Nat
  text : String
  body : Option Json

/-- Dict lookup `tasks.get(task_id)` / `tasks[task_id]`. -/
def storeGet (tasks : TaskStore) (task_id : String) : Option TaskEntry :=
  match tasks with
  | [] => none
  | (k, v) :: rest => if k = task_id then some v else storeGet rest task_id

/-- Dict assignment `tasks[task_id] = e` (replaces the binding when the key is
present, appends it otherwise). -/
def storeSet (tasks : TaskStore) (task_id : String) (e : TaskEntry) : TaskStore :=
  match tasks with
  | [] => [(task_id, e)]
  | (k, v) :: rest => if k = task_id then (k, e) :: rest else (k, v) :: storeSet rest task_id e

/-- In-place mutation of the entry dict, total version: `tasks[task_id][...] = ...`
assuming the key is present (no-op otherwise). -/
def storeUpdT (tasks : TaskStore) (task_id : String) (f : TaskEntry → TaskEntry) : TaskStore :=
  match tasks with
  | [] => []
  | (k, v) :: rest => if k = task_id then (k, f v) :: rest else (k, v) :: storeUpdT rest task_id f

/-- In-place mutation `tasks[task_id][...] = ...`; `none` is the `KeyError`
raised by `tasks[task_id]` when the key is absent. -/
def storeUpdate (tasks : TaskStore) (task_id : String) (f : TaskEntry → TaskEntry) :
    Option TaskStore :=
  match storeGet tasks task_id with
  | none => none
  | some _ => some (storeUpdT tasks task_id f)

/-- Python `list.startswith`-style check on character lists: first argument
starts with the second. -/
def listStartsWith : List Char → List Char → Bool
  | _, [] => true
  | [], _ :: _ => false
  | c :: s, p :: ps => c = p && listStartsWith s ps

/-- Python `str.startswith` (src/main.py line 153). -/
def pyStartsWith (s pre : String) : Bool :=
  listStartsWith s.data pre.data

/-- Python slicing `s[n:]` (by code points, as in Python). -/
def pyDrop (s : String) (n : Nat) : String :=
  String.mk (s.data.drop n)

/-- The characters Python's `str.strip()` removes. -/
def isPySpace (c : Char) : Bool :=
  c = ' ' || c = '\t' || c = '\n' || c = '\r' || c = '\x0b' || c = '\x0c'

/-- Python `str.strip()` with no arguments. -/
def pyStrip (s : String) : String :=
  String.mk (((s.data.dropWhile isPySpace).reverse.dropWhile isPySpace).reverse)

/-- The part of a character list before the first occurrence of `sep`:
Python `s.split(sep)[0]`. -/
def takeUntilSep (sep : List Char) : List Char → List Char
  | [] => []
  | c :: rest => if listStartsWith (c :: rest) sep then [] else c :: takeUntilSep sep rest

/-- Python `"\n".join` over a list of strings. -/
def joinLines : List String → String
  | [] => ""
  | [s] => s
  | s :: rest => s ++ "\n" ++ joinLines rest

/-- Decimal digit to character. -/
def digitChar : Nat → Char
  | 0 => '0' | 1 => '1' | 2 => '2' | 3 => '3' | 4 => '4'
  | 5 => '5' | 6 => '6' | 7 => '7' | 8 => '8' | _ => '9'

/-- Decimal digits of `n`, fuel-driven so that it reduces in the kernel. -/
def natDigitsAux : Nat → Nat → List Char
  | 0, _ => []
  | _ + 1, 0 => []
  | fuel + 1, n + 1 => natDigitsAux fuel ((n + 1) / 10) ++ [digitChar ((n + 1) % 10)]

/-- Python `str(n)` for a non-negative integer. -/
def natToString (n : Nat) : String :=
  if n = 0 then "0" else String.mk (natDigitsAux n n)

/-- Python `str(i)` for an integer. -/
def intToString : Int → String
  | .ofNat n => natToString n
  | .negSucc n => "-" ++ natToString (n + 1)

/-- The substring relation used to state that a message "carries"/"names" a
piece of text. -/
def hasSubstring (s sub : String) : Prop :=
  ∃ a b, s = a ++ sub ++ b

/-- Fixed part of the prompt before the DDL block (src/main.py lines 90-110;
the Python f-string writes a literal brace as a doubled brace, here escaped). -/
def promptHeader : String :=
  "\nТы — эксперт по оптимизации Data Lakehouse на базе Trino + Iceberg + S3.\nПроанализируй DDL и часто выполняемые SQL-запросы.\nПредложи оптимизацию производительности через:\n- Денормализацию таблиц, которые часто джойнятся\n- Партиционирование по дате или другому полю\n- Изменение типов данных\n- Создание плоских таблиц для ускорения аналитики\n\nВАЖНО:\n1. Первая команда DDL должна быть: CREATE SCHEMA <catalog>.<new_schema>\n2. Все таблицы должны использовать полный путь: catalog.schema.table\n3. Верни строго JSON в формате:\n\x7b\n  \"ddl\": [\x7b\"statement\": \"...\"\x7d, ...],\n  \"migrations\": [\x7b\"statement\": \"...\"\x7d, ...],\n  \"queries\": [\x7b\"queryid\": \"...\", \"query\": \"...\"\x7d, ...]\n\x7d\n\nDDL:\n"

/-- Fixed part of the prompt between the DDL block and the query examples. -/
def promptQuerySection : String :=
  "\n\nПримеры запросов:\n"

/-- Fixed part of the prompt after the query examples. -/
def promptFooter : String :=
  "\n\nВерни только JSON, без пояснений.\n"

/-- One line of the query preview:
`f"{q.queryid}: {q.query} (выполняется {q.runquantity} раз)"` (line 88). -/
def queryLine (q : QueryItem) : String :=
  q.queryid ++ ": " ++ q.query ++ " (выполняется " ++ intToString q.runquantity ++ " раз)"

/-- The prompt sent upstream (src/main.py lines 87-116): all DDL statements
joined by newlines, but only the first 3 queries (`request.queries[:3]`). -/
def buildPrompt (request : NewTaskRequest) : String :=
  let ddl_statements := joinLines (request.ddl.map DDLStatement.statement)
  let query_examples := joinLines ((request.queries.take 3).map queryLine)
  promptHeader ++ ddl_statements ++ promptQuerySection ++ query_examples ++ promptFooter

/-- The failure modes of the `try` block of `hf_optimize`, i.e. the exceptions
its catch-all `except` can receive (src/main.py lines 83-171). -/
inductive PipeError where
  /-- `Exception("HF_TOKEN не установлен")` (line 124), also raised through the
  falsy check when the variable is set to the empty string. -/
  | noToken : PipeError
  /-- an exception raised by `requests.post` itself (line 141), e.g. a timeout;
  carries `str(e)`. -/
  | netError (diag : String) : PipeError
  /-- `Exception(f"❌ HF API вернул {status_code}: {text}")` (lines 143-146). -/
  | upstream (code : Nat) (body : String) : PipeError
  /-- an exception raised while evaluating
  `response.json()[0]["generated_text"].strip()` (line 148): body not JSON,
  wrong envelope shape, or a non-string `generated_text`. -/
  | badEnvelope : PipeError
  /-- `Exception(f"Невалидный JSON: {e}")` (line 163); carries the
  `json.JSONDecodeError` text. -/
  | badJson (diag : String) : PipeError
  /-- the `AttributeError` raised by `result.get("ddl")` when the parsed value
  is not a dict (line 166); carries the Python type name of the value. -/
  | badGet (tyname : String) : PipeError
  /-- `ValueError(f"Ответ не содержит списка {field}")` (lines 166-171). -/
  | missingField (field : String) : PipeError

/-- The string `str(e)` stored as the `"error"` entry of a failed task.  For
`badEnvelope` the text is produced by the interpreter (KeyError/IndexError/
TypeError); no property here depends on it, so a representative constant is
used. -/
def errMsg : PipeError → String
  | .noToken => "HF_TOKEN не установлен"
  | .netError diag => diag
  | .upstream code body => "❌ HF API вернул " ++ natToString code ++ ": " ++ body
  | .badEnvelope => "unexpected upstream response envelope"
  | .badJson diag => "Невалидный JSON: " ++ diag
  | .badGet ty => "'" ++ ty ++ "' object has no attribute 'get'"
  | .missingField f => "Ответ не содержит списка " ++ f

/-- The fixed human-readable message of a stored failure (line 182). -/
def failMessageRu : String :=
  "Не удалось выполнить оптимизацию. Проверьте входные данные и токен."

/-- The dict stored in `result` on failure (src/main.py lines 180-183). -/
def errorDict (e : PipeError) : Json :=
  .obj [("error", .str (errMsg e)), ("message", .str failMessageRu)]

/-- Lookup of a key in the field list of a decoded JSON object (`dict.get`). -/
def lookupField : List (String × Json) → String → Option Json
  | [], _ => none
  | (k, v) :: rest, key => if k = key then some v else lookupField rest key

/-- Python `result.get(key)` on a decoded JSON dict (`none` also covers the
key being absent). -/
def jsonGet (j : Json) (key : String) : Option Json :=
  match j with
  | .obj fields => lookupField fields key
  | _ => none

/-- `isinstance(v, list)` on the result of a `.get` (`none` = key absent = `None`). -/
def isJsonList : Option Json → Bool
  | some (.arr _) => true
  | _ => false

/-- Python's type name for a decoded JSON value (used in the `AttributeError`
text of `v.get(...)` on a non-dict `v`). -/
def pyTypeName : Json → String
  | .null => "NoneType"
  | .bool _ => "bool"
  | .num _ => "int"
  | .str _ => "str"
  | .arr _ => "list"
  | .obj _ => "dict"

/-- `response.json()[0]["generated_text"]` restricted to the case where the
whole chain evaluates to a string (src/main.py line 148); `none` is any raised
exception along the chain (non-JSON body, non-list body, empty list, first
element without a string `"generated_text"`). -/
def extractGeneratedText (body : Option Json) : Option String :=
  match body with
  | some (.arr (first :: _)) =>
    match jsonGet first "generated_text" with
    | some (.str s) => some s
    | _ => none
  | _ => none

/-- The Markdown fence stripping of src/main.py lines 152-154:
`if result_text.startswith("```json"): result_text = result_text[7:].split("```")[0].strip()`. -/
def stripMarkdownFence (result_text : String) : String :=
  if pyStartsWith result_text "```json" then
    pyStrip (String.mk (takeUntilSep ("```".data) ((pyDrop result_text 7).data)))
  else result_text

/-- The structure checks of src/main.py lines 165-171, together with the
implicit `AttributeError` of `result.get` when the parsed value is not a dict. -/
def validateStructure (result : Json) : Except PipeError Json :=
  match result with
  | .obj fields =>
    if ¬ isJsonList (jsonGet (.obj fields) "ddl") then .error (.missingField "ddl")
    else if ¬ isJsonList (jsonGet (.obj fields) "migrations") then .error (.missingField "migrations")
    else if ¬ isJsonList (jsonGet (.obj fields) "queries") then .error (.missingField "queries")
    else .ok (.obj fields)
  | other => .error (.badGet (pyTypeName other))

/-- The body of the `try` block of `hf_optimize` up to (and excluding) the two
store writes (src/main.py lines 84-171): prompt construction, token check,
upstream call, status check, envelope extraction, fence stripping, JSON
parsing, structure validation.  `parse` is the `json.loads` oracle, `hfToken`
the value of `os.getenv("HF_TOKEN")`, `post` the `requests.post` oracle
applied to the prompt. -/
def hfPipeline (parse : String → Except String Json) (hfToken : Option String)
    (post : String → Except String UpstreamResponse) (request : NewTaskRequest) :
    Except PipeError Json :=
  let prompt := buildPrompt request
  match hfToken with
  | none => .error .noToken
  | some tok =>
    if tok = "" then .error .noToken
    else
      match post prompt with
      | .error diag => .error (.netError diag)
      | .ok response =>
        if response.status_code ≠ 200 then
          .error (.upstream response.status_code response.text)
        else
          match extractGeneratedText response.body with
          | none => .error .badEnvelope
          | some generated =>
            let result_text := stripMarkdownFence (pyStrip generated)
            match parse result_text with
            | .error diag => .error (.badJson diag)
            | .ok result => validateStructure result

/-- The task runner `hf_optimize` (src/main.py lines 81-183) as a store
transformer.  On pipeline success it writes `result` then `status = "DONE"`
(lines 173-174); on any pipeline exception the catch-all writes
`status = "FAILED"` then the error dict (lines 177-183).  The outer `none`
models the only escape hatch: a `KeyError` on `tasks[task_id]` itself (the id
was never inserted), which the handler would re-raise rather than store. -/
def hf_optimize (parse : String → Except String Json) (hfToken : Option String)
    (post : String → Except String UpstreamResponse) (tasks : TaskStore)
    (task_id : String) (request : NewTaskRequest) : Option TaskStore :=
  match hfPipeline parse hfToken post request with
  | .ok result =>
    match storeUpdate tasks task_id (fun t => { t with result := some result }) with
    | none => none
    | some s1 => storeUpdate s1 task_id (fun t => { t with status := "DONE" })
  | .error e =>
    match storeUpdate tasks task_id (fun t => { t with status := "FAILED" }) with
    | none => none
    | some s1 => storeUpdate s1 task_id (fun t => { t with result := some (errorDict e) })

/-- Total write of the `status` field of one entry. -/
def setStatusT (tasks : TaskStore) (task_id : String) (st : String) : TaskStore :=
  storeUpdT tasks task_id (fun t => { t with status := st })

/-- Total write of the `result` field of one entry. -/
def setResultT (tasks : TaskStore) (task_id : String) (r : Option Json) : TaskStore :=
  storeUpdT tasks task_id (fun t => { t with result := r })

/-- The successive snapshots of the task store during one `hf_optimize` run
(initial state, after the first write, after the second write), exposing the
intermediate state between the two writes of each branch. -/
def runnerTrace (parse : String → Except String Json) (hfToken : Option String)
    (post : String → Except String UpstreamResponse) (tasks : TaskStore)
    (task_id : String) (request : NewTaskRequest) : List TaskStore :=
  match hfPipeline parse hfToken post request with
  | .ok result =>
    [tasks, setResultT tasks task_id (some result),
      setStatusT (setResultT tasks task_id (some result)) task_id "DONE"]
  | .error e =>
    [tasks, setStatusT tasks task_id "FAILED",
      setResultT (setStatusT tasks task_id "FAILED") task_id (some (errorDict e))]

/-- The store insertion performed by `create_task` (src/main.py line 52); id
generation (`uuid.uuid4()`) and the thread dispatch of `hf_optimize` are
external to the store and passed in / modeled separately. -/
def create_task (tasks : TaskStore) (task_id : String) : TaskStore :=
  storeSet tasks task_id { status := "RUNNING", result := none }

/-- Outcome of `GET /status` (src/main.py lines 59-63). -/
inductive StatusOutcome where
  | notFound : StatusOutcome
  | ok (status : String) : StatusOutcome
deriving DecidableEq

/-- The `get_status` endpoint (src/main.py lines 59-63). -/
def get_status (tasks : TaskStore) (task_id : String) : StatusOutcome :=
  match storeGet tasks task_id with
  | none => .notFound
  | some task => .ok task.status

/-- Outcome of `GET /getresult`: an `HTTPException(code, detail)`, a returned
payload, or the uncaught `AttributeError` raised by
`task.get("result", {}).get("error", ...)` when the stored result is not a
dict (in particular Python `None`). -/
inductive GetResultOutcome where
  | httpError (code : Nat) (detail : Json) : GetResultOutcome
  | ok (result : Option Json) : GetResultOutcome
  | attrError : GetResultOutcome

/-- The `get_result` endpoint (src/main.py lines 66-77). -/
def get_result (tasks : TaskStore) (task_id : String) : GetResultOutcome :=
  match storeGet tasks task_id with
  | none => .httpError 404 (.str "Task not found")
  | some task =>
    if task.status = "FAILED" then
      match task.result with
      | some (.obj fields) =>
        .httpError 500 ((lookupField fields "error").getD (.str "Unknown error"))
      | _ => .attrError
    else if task.status ≠ "DONE" then
      .httpError 400 (.str "Task not ready")
    else
      .ok task.result

/-- Status field of the entry of `task_id`, as an observation on snapshots. -/
def statusAt (tasks : TaskStore) (task_id : String) : Option String :=
  (storeGet tasks task_id).map TaskEntry.status

/-- Result field of the entry of `task_id`, as an observation on snapshots. -/
def resultAt (tasks : TaskStore) (task_id : String) : Option (Option Json) :=
  (storeGet tasks task_id).map TaskEntry.result

/-! Lemmas about the store operations. -/

theorem storeGet_storeSet_self (tasks : TaskStore) (task_id : String) (e : TaskEntry) :
    storeGet (storeSet tasks task_id e) task_id = some e := by
  induction tasks with
  | nil => simp [storeSet, storeGet]
  | cons kv rest ih =>
    obtain ⟨k, v⟩ := kv
    by_cases h : k = task_id
    · simp [storeSet, storeGet, h]
    · simp [storeSet, storeGet, h, ih]

theorem storeGet_storeSet_ne (tasks : TaskStore) (task_id : String) (e : TaskEntry)
    (other : String) (hne : other ≠ task_id) :
    storeGet (storeSet tasks task_id e) other = storeGet tasks other := by
  induction tasks with
  | nil => simp [storeSet, storeGet, Ne.symm hne]
  | cons kv rest ih =>
    obtain ⟨k, v⟩ := kv
    by_cases h : k = task_id
    · simp [storeSet, storeGet, h, Ne.symm hne]
    · by_cases h2 : k = other
      · simp [storeSet, storeGet, h, h2, hne]
      · simp [storeSet, storeGet, h, h2, ih]

theorem storeGet_storeUpdT_self {tasks : TaskStore} {task_id : String} {t : TaskEntry}
    (f : TaskEntry → TaskEntry) (h : storeGet tasks task_id = some t) :
    storeGet (storeUpdT tasks task_id f) task_id = some (f t) := by
  induction tasks with
  | nil => simp [storeGet] at h
  | cons kv rest ih =>
    obtain ⟨k, v⟩ := kv
    by_cases hk : k = task_id
    · simp [storeGet, hk] at h
      simp [storeUpdT, storeGet, hk, h]
    · simp [storeGet, hk] at h
      simp [storeUpdT, storeGet, hk, ih h]

theorem storeGet_storeUpdT_ne (tasks : TaskStore) (task_id : String)
    (f : TaskEntry → TaskEntry) (other : String) (hne : other ≠ task_id) :
    storeGet (storeUpdT tasks task_id f) other = storeGet tasks other := by
  induction tasks with
  | nil => simp [storeUpdT, storeGet]
  | cons kv rest ih =>
    obtain ⟨k, v⟩ := kv
    by_cases hk : k = task_id
    · simp [storeUpdT, storeGet, hk, Ne.symm hne]
    · by_cases h2 : k = other
      · simp [storeUpdT, storeGet, hk, h2, hne]
      · simp [storeUpdT, storeGet, hk, h2, ih]

theorem storeUpdate_of_mem {tasks : TaskStore} {task_id : String} {t : TaskEntry}
    (f : TaskEntry → TaskEntry) (h : storeGet tasks task_id = some t) :
    storeUpdate tasks task_id f = some (storeUpdT tasks task_id f) := by
  simp [storeUpdate, h]

theorem storeUpdate_frame {tasks : TaskStore} {task_id : String}
    {f : TaskEntry → TaskEntry} {tasks' : TaskStore}
    (h : storeUpdate tasks task_id f = some tasks')
    {other : String} (hne : other ≠ task_id) :
    storeGet tasks' other = storeGet tasks other := by
  unfold storeUpdate at h
  cases hg : storeGet tasks task_id with
  | none => rw [hg] at h; cases h
  | some t =>
    rw [hg] at h
    simp only [Option.some.injEq] at h
    subst h
    exact storeGet_storeUpdT_ne tasks task_id f other hne

/-! Lemmas about the runner's store writes. -/

theorem hf_optimize_ok {parse : String → Except String Json} {hfToken : Option String}
    {post : String → Except String UpstreamResponse} {tasks : TaskStore}
    {task_id : String} {request : NewTaskRequest} {r : Json} {t : TaskEntry}
    (hp : hfPipeline parse hfToken post request = .ok r)
    (hmem : storeGet tasks task_id = some t) :
    hf_optimize parse hfToken post tasks task_id request =
      some (setStatusT (setResultT tasks task_id (some r)) task_id "DONE") := by
  unfold hf_optimize
  rw [hp]
  simp only []
  rw [storeUpdate_of_mem _ hmem]
  simp only []
  rw [setResultT, setStatusT, storeUpdate_of_mem _ (storeGet_storeUpdT_self _ hmem)]

theorem hf_optimize_err {parse : String → Except String Json} {hfToken : Option String}
    {post : String → Except String UpstreamResponse} {tasks : TaskStore}
    {task_id : String} {request : NewTaskRequest} {e : PipeError} {t : TaskEntry}
    (hp : hfPipeline parse hfToken post request = .error e)
    (hmem : storeGet tasks task_id = some t) :
    hf_optimize parse hfToken post tasks task_id request =
      some (setResultT (setStatusT tasks task_id "FAILED") task_id (some (errorDict e))) := by
  unfold hf_optimize
  rw [hp]
  simp only []
  rw [storeUpdate_of_mem _ hmem]
  simp only []
  rw [setStatusT, setResultT, storeUpdate_of_mem _ (storeGet_storeUpdT_self _ hmem)]

theorem hf_optimize_frame {parse : String → Except String Json} {hfToken : Option String}
    {post : String → Except String UpstreamResponse} {tasks : TaskStore}
    {task_id : String} {request : NewTaskRequest} {tasks' : TaskStore}
    (h : hf_optimize parse hfToken post tasks task_id request = some tasks')
    {other : String} (hne : other ≠ task_id) :
    storeGet tasks' other = storeGet tasks other := by
  unfold hf_optimize at h
  cases hp : hfPipeline parse hfToken post request with
  | ok r =>
    rw [hp] at h
    simp only [] at h
    cases hu : storeUpdate tasks task_id (fun t => { t with result := some r }) with
    | none => rw [hu] at h; cases h
    | some s1 =>
      rw [hu] at h
      simp only [] at h
      rw [storeUpdate_frame h hne, storeUpdate_frame hu hne]
  | error e =>
    rw [hp] at h
    simp only [] at h
    cases hu : storeUpdate tasks task_id (fun t => { t with status := "FAILED" }) with
    | none => rw [hu] at h; cases h
    | some s1 =>
      rw [hu] at h
      simp only [] at h
      rw [storeUpdate_frame h hne, storeUpdate_frame hu hne]

/-! Lemmas about string concatenation and `joinLines`. -/

theorem joinLines_mem_decomp {s : String} {l : List String} (h : s ∈ l) :
    ∃ a b, joinLines l = a ++ s ++ b := by
  induction l with
  | nil => cases h
  | cons x rest ih =>
    cases h with
    | head =>
      cases rest with
      | nil => exact ⟨"", "", by simp [joinLines]⟩
      | cons y r =>
        refine ⟨"", "\n" ++ joinLines (y :: r), ?_⟩
        simp [joinLines, String.append_assoc]
    | tail _ hmem =>
      obtain ⟨a, b, hab⟩ := ih hmem
      cases rest with
      | nil => cases hmem
      | cons y r =>
        refine ⟨x ++ "\n" ++ a, b, ?_⟩
        simp [joinLines, hab, String.append_assoc]

/-- C1: for every task id and request, and every outcome of the background
pipeline (each failure constructor of `PipeError` — missing credential,
network failure, non-success upstream status, malformed envelope, JSON parse
failure, schema-validation failure — as well as success), the runner
`hf_optimize` terminates with the task's stored status set to a terminal
value: `DONE` with the parsed result on success, `FAILED` with the stored
error dict on any raised error; no error escapes the runner (the returned
store is always `some`), so the task never stays `RUNNING`. -/
theorem claim1_runner_terminal (parse : String → Except String Json)
    (hfToken : Option String) (post : String → Except String UpstreamResponse)
    (tasks : TaskStore) (task_id : String) (request : NewTaskRequest) (t : TaskEntry)
    (hmem : storeGet tasks task_id = some t) :
    ∃ tasks', hf_optimize parse hfToken post tasks task_id request = some tasks' ∧
      ((∃ r, hfPipeline parse hfToken post request = .ok r ∧
          storeGet tasks' task_id = some { status := "DONE", result := some r }) ∨
       (∃ e, hfPipeline parse hfToken post request = .error e ∧
          storeGet tasks' task_id = some { status := "FAILED", result := some (errorDict e) })) := by
  cases hp : hfPipeline parse hfToken post request with
  | ok r =>
    refine ⟨_, hf_optimize_ok hp hmem, .inl ⟨r, rfl, ?_⟩⟩
    have h1 : storeGet (setResultT tasks task_id (some r)) task_id
        = some { status := t.status, result := some r } := by
      rw [setResultT, storeGet_storeUpdT_self _ hmem]
    rw [setStatusT, storeGet_storeUpdT_self _ h1]
  | error e =>
    refine ⟨_, hf_optimize_err hp hmem, .inr ⟨e, rfl, ?_⟩⟩
    have h1 : storeGet (setStatusT tasks task_id "FAILED") task_id
        = some { status := "FAILED", result := t.result } := by
      rw [setStatusT, storeGet_storeUpdT_self _ hmem]
    rw [setResultT, storeGet_storeUpdT_self _ h1]

/-- Witness for C1: a concrete run (missing token, so the pipeline raises)
on a store holding the freshly created `RUNNING` task. -/
theorem claim1_witness :
    ∃ tasks', hf_optimize (fun _ => Except.error "Expecting value: line 1 column 1 (char 0)")
        none (fun _ => Except.error "unreachable")
        [("t1", { status := "RUNNING", result := none })] "t1"
        { url := "s3://x", ddl := [{ statement := "CREATE TABLE t(a int)" }],
          queries := [{ queryid := "q1", query := "SELECT * FROM t", runquantity := 100 }] }
        = some tasks' ∧
      ((∃ r, hfPipeline (fun _ => Except.error "Expecting value: line 1 column 1 (char 0)")
          none (fun _ => Except.error "unreachable")
          { url := "s3://x", ddl := [{ statement := "CREATE TABLE t(a int)" }],
            queries := [{ queryid := "q1", query := "SELECT * FROM t", runquantity := 100 }] }
            = .ok r ∧
          storeGet tasks' "t1" = some { status := "DONE", result := some r }) ∨
       (∃ e, hfPipeline (fun _ => Except.error "Expecting value: line 1 column 1 (char 0)")
          none (fun _ => Except.error "unreachable")
          { url := "s3://x", ddl := [{ statement := "CREATE TABLE t(a int)" }],
            queries := [{ queryid := "q1", query := "SELECT * FROM t", runquantity := 100 }] }
            = .error e ∧
          storeGet tasks' "t1" = some { status := "FAILED", result := some (errorDict e) })) :=
  claim1_runner_terminal _ none _ _ "t1" _ { status := "RUNNING", result := none } rfl

/-- C10: the failure handler writes `status = "FAILED"` (line 179) before it
writes the error dict (line 180), so between the two writes the store holds a
`FAILED` task whose `result` is still `None`; on that snapshot the error-detail
lookup `task.get("result", {}).get("error", ...)` of `get_result` raises an
unhandled `AttributeError` instead of returning the stored diagnostic (which
only the next snapshot serves as a 500 detail). -/
theorem claim10_failed_window (parse : String → Except String Json)
    (hfToken : Option String) (post : String → Except String UpstreamResponse)
    (tasks : TaskStore) (task_id : String) (request : NewTaskRequest) (e : PipeError)
    (hmem : storeGet tasks task_id = some { status := "RUNNING", result := none })
    (herr : hfPipeline parse hfToken post request = .error e) :
    ∃ s1 s2, runnerTrace parse hfToken post tasks task_id request = [tasks, s1, s2] ∧
      storeGet s1 task_id = some { status := "FAILED", result := none } ∧
      get_result s1 task_id = .attrError ∧
      storeGet s2 task_id = some { status := "FAILED", result := some (errorDict e) } ∧
      get_result s2 task_id = .httpError 500 (.str (errMsg e)) := by
  have h1 : storeGet (setStatusT tasks task_id "FAILED") task_id
      = some { status := "FAILED", result := none } := by
    rw [setStatusT, storeGet_storeUpdT_self _ hmem]
  have h2 : storeGet (setResultT (setStatusT tasks task_id "FAILED") task_id
        (some (errorDict e))) task_id
      = some { status := "FAILED", result := some (errorDict e) } := by
    rw [setResultT, storeGet_storeUpdT_self _ h1]
  refine ⟨_, _, ?_, h1, ?_, h2, ?_⟩
  · unfold runnerTrace
    rw [herr]
  · unfold get_result
    rw [h1]
    rfl
  · unfold get_result
    rw [h2]
    rfl

/-- Witness for C10: a concrete failing run (missing token) on a freshly
created task; the intermediate snapshot is `FAILED` with `result = None` and
`get_result` on it is the uncaught `AttributeError`. -/
theorem claim10_witness :
    ∃ s1 s2, runnerTrace (fun _ => Except.error "Expecting value: line 1 column 1 (char 0)")
        none (fun _ => Except.error "unreachable")
        [("t1", { status := "RUNNING", result := none })] "t1"
        { url := "s3://x", ddl := [], queries := [] } =
        [[("t1", { status := "RUNNING", result := none })], s1, s2] ∧
      storeGet s1 "t1" = some { status := "FAILED", result := none } ∧
      get_result s1 "t1" = .attrError ∧
      storeGet s2 "t1" = some { status := "FAILED", result := some (errorDict .noToken) } ∧
      get_result s2 "t1" = .httpError 500 (.str (errMsg .noToken)) :=
  claim10_failed_window _ none _ _ "t1" _ .noToken rfl rfl

/-- Counterexample to C2 as stated: in a concrete failing run, the terminal
status `FAILED` is already set on the intermediate snapshot `s1` while the
`result` field is still unwritten, and the runner then mutates `result` on the
way to `s2` — a further mutation of the task after its terminal status was
set, contradicting "no further mutation after the terminal status is set". -/
theorem claim2_counterexample :
    ∃ s1 s2, runnerTrace (fun _ => Except.error "Expecting value: line 1 column 1 (char 0)")
        none (fun _ => Except.error "connection error")
        [("t1", { status := "RUNNING", result := none })] "t1"
        { url := "s3://x", ddl := [], queries := [] } =
        [[("t1", { status := "RUNNING", result := none })], s1, s2] ∧
      statusAt s1 "t1" = some "FAILED" ∧
      resultAt s1 "t1" = some none ∧
      resultAt s2 "t1" = some (some (errorDict .noToken)) ∧
      resultAt s1 "t1" ≠ resultAt s2 "t1" := by
  refine ⟨_, _, rfl, rfl, rfl, rfl, ?_⟩
  intro h
  simp only [resultAt] at h
  rw [show storeGet (setStatusT [("t1", { status := "RUNNING", result := none })] "t1" "FAILED")
      "t1" = some { status := "FAILED", result := none } from rfl] at h
  rw [show storeGet (setResultT (setStatusT [("t1", { status := "RUNNING", result := none })]
      "t1" "FAILED") "t1" (some (errorDict .noToken))) "t1"
      = some { status := "FAILED", result := some (errorDict .noToken) } from rfl] at h
  simp at h

/-- C2 amended: the stored status moves monotonically from `RUNNING` to exactly
one terminal value (`DONE` or `FAILED`) and the status never changes once
terminal; the result field is written exactly once per run — but the single
result write precedes the terminal status in the success path and follows it
in the failure path (the write order of lines 179-180), so the one mutation
after the terminal status is that result write; after the run ends no other
background unit mutates the entry, and repeated status reads return the same
terminal value. -/
theorem claim2_amended (parse : String → Except String Json) (hfToken : Option String)
    (post : String → Except String UpstreamResponse) (tasks : TaskStore)
    (task_id : String) (request : NewTaskRequest)
    (hmem : storeGet tasks task_id = some { status := "RUNNING", result := none }) :
    ∃ s1 s2,
      runnerTrace parse hfToken post tasks task_id request = [tasks, s1, s2] ∧
      hf_optimize parse hfToken post tasks task_id request = some s2 ∧
      statusAt tasks task_id = some "RUNNING" ∧
      ((∃ r, hfPipeline parse hfToken post request = .ok r ∧
          storeGet s1 task_id = some { status := "RUNNING", result := some r } ∧
          storeGet s2 task_id = some { status := "DONE", result := some r } ∧
          get_status s2 task_id = .ok "DONE") ∨
       (∃ e, hfPipeline parse hfToken post request = .error e ∧
          storeGet s1 task_id = some { status := "FAILED", result := none } ∧
          storeGet s2 task_id = some { status := "FAILED", result := some (errorDict e) } ∧
          get_status s2 task_id = .ok "FAILED")) ∧
      (∀ parse' hfToken' post' request' other s3, other ≠ task_id →
        hf_optimize parse' hfToken' post' s2 other request' = some s3 →
        storeGet s3 task_id = storeGet s2 task_id) := by
  cases hp : hfPipeline parse hfToken post request with
  | ok r =>
    have h1 : storeGet (setResultT tasks task_id (some r)) task_id
        = some { status := "RUNNING", result := some r } := by
      rw [setResultT, storeGet_storeUpdT_self _ hmem]
    have h2 : storeGet (setStatusT (setResultT tasks task_id (some r)) task_id "DONE") task_id
        = some { status := "DONE", result := some r } := by
      rw [setStatusT, storeGet_storeUpdT_self _ h1]
    refine ⟨_, _, ?_, hf_optimize_ok hp hmem, ?_, .inl ⟨r, rfl, h1, h2, ?_⟩, ?_⟩
    · unfold runnerTrace
      rw [hp]
    · unfold statusAt
      rw [hmem]
      rfl
    · unfold get_status
      rw [h2]
    · intro parse' hfToken' post' request' other s3 hne h3
      exact hf_optimize_frame h3 (Ne.symm hne)
  | error e =>
    have h1 : storeGet (setStatusT tasks task_id "FAILED") task_id
        = some { status := "FAILED", result := none } := by
      rw [setStatusT, storeGet_storeUpdT_self _ hmem]
    have h2 : storeGet (setResultT (setStatusT tasks task_id "FAILED") task_id
          (some (errorDict e))) task_id
        = some { status := "FAILED", result := some (errorDict e) } := by
      rw [setResultT, storeGet_storeUpdT_self _ h1]
    refine ⟨_, _, ?_, hf_optimize_err hp hmem, ?_, .inr ⟨e, rfl, h1, h2, ?_⟩, ?_⟩
    · unfold runnerTrace
      rw [hp]
    · unfold statusAt
      rw [hmem]
      rfl
    · unfold get_status
      rw [h2]
    · intro parse' hfToken' post' request' other s3 hne h3
      exact hf_optimize_frame h3 (Ne.symm hne)

/-- Witness for the amended C2: the concrete failing run of the
counterexample, run through the amended theorem. -/
theorem claim2_witness :
    ∃ s1 s2, runnerTrace (fun _ => Except.error "Expecting value: line 1 column 1 (char 0)")
        none (fun _ => Except.error "connection error")
        [("t1", { status := "RUNNING", result := none })] "t1"
        { url := "s3://x", ddl := [], queries := [] } =
        [[("t1", { status := "RUNNING", result := none })], s1, s2] ∧
      storeGet s2 "t1" = some { status := "FAILED", result := some (errorDict .noToken) } ∧
      get_status s2 "t1" = .ok "FAILED" := by
  obtain ⟨s1, s2, htr, _, _, hcase, _⟩ :=
    claim2_amended (fun _ => Except.error "Expecting value: line 1 column 1 (char 0)")
      none (fun _ => Except.error "connection error")
      [("t1", { status := "RUNNING", result := none })] "t1"
      { url := "s3://x", ddl := [], queries := [] } rfl
  refine ⟨s1, s2, htr, ?_⟩
  rcases hcase with ⟨r, hok, _⟩ | ⟨e, herr, _, h2, hst⟩
  · rw [show hfPipeline (fun _ => Except.error "Expecting value: line 1 column 1 (char 0)")
        none (fun _ => Except.error "connection error")
        { url := "s3://x", ddl := [], queries := [] } = .error .noToken from rfl] at hok
    cases hok
  · rw [show hfPipeline (fun _ => Except.error "Expecting value: line 1 column 1 (char 0)")
        none (fun _ => Except.error "connection error")
        { url := "s3://x", ddl := [], queries := [] } = .error .noToken from rfl] at herr
    cases herr
    exact ⟨h2, hst⟩

/-- C5: `get_result` is a four-way dispatch on the stored task: 404 when the
id is absent, 500 surfacing the stored error string when the status is
`FAILED` (and an `ErrorResult` is stored, as the failure handler leaves it),
400 "not ready" when the status is neither `FAILED` nor `DONE`, and the stored
result payload when the status is `DONE`. -/
theorem claim5_result_dispatch (tasks : TaskStore) (task_id : String) :
    (storeGet tasks task_id = none →
      get_result tasks task_id = .httpError 404 (.str "Task not found")) ∧
    (∀ t msg rest, storeGet tasks task_id = some t → t.status = "FAILED" →
      t.result = some (.obj (("error", .str msg) :: rest)) →
      get_result tasks task_id = .httpError 500 (.str msg)) ∧
    (∀ t, storeGet tasks task_id = some t → t.status ≠ "FAILED" → t.status ≠ "DONE" →
      get_result tasks task_id = .httpError 400 (.str "Task not ready")) ∧
    (∀ t, storeGet tasks task_id = some t → t.status = "DONE" →
      get_result tasks task_id = .ok t.result) := by
  refine ⟨?_, ?_, ?_, ?_⟩
  · intro h
    unfold get_result
    rw [h]
  · intro t msg rest hg hst hres
    unfold get_result
    rw [hg]
    simp only []
    rw [hst, hres]
    rfl
  · intro t hg h1 h2
    unfold get_result
    rw [hg]
    simp only []
    rw [if_neg h1, if_pos h2]
  · intro t hg hst
    unfold get_result
    rw [hg]
    simp only []
    rw [hst]
    rfl

/-- Witness for C5: the four dispatch outcomes at four concrete stores. -/
theorem claim5_witness :
    get_result [] "missing" = .httpError 404 (.str "Task not found") ∧
    get_result [("f", { status := "FAILED", result :=
                        some (.obj [("error", .str "boom"), ("message", .str "m")]) })] "f"
      = .httpError 500 (.str "boom") ∧
    get_result [("r", { status := "RUNNING", result := none })] "r"
      = .httpError 400 (.str "Task not ready") ∧
    get_result [("d", { status := "DONE", result := some (.obj []) })] "d"
      = .ok (some (.obj [])) := by
  refine ⟨(claim5_result_dispatch [] "missing").1 rfl, ?_, ?_, ?_⟩
  · exact (claim5_result_dispatch _ "f").2.1
      { status := "FAILED", result := some (.obj [("error", .str "boom"), ("message", .str "m")]) }
      "boom" [("message", .str "m")] rfl rfl rfl
  · exact (claim5_result_dispatch _ "r").2.2.1
      { status := "RUNNING", result := none } rfl (by decide) (by decide)
  · exact (claim5_result_dispatch _ "d").2.2.2
      { status := "DONE", result := some (.obj []) } rfl rfl

/-- C6: whenever the upstream endpoint returns a non-success HTTP status, the
pipeline fails with the `upstream` error carrying the numeric status code and
the raw response body, the stored error message contains both, and the task
ends `FAILED` with that message stored; in particular a 503 yields a stored
error string containing "503". -/
theorem claim6_upstream_error (parse : String → Except String Json) (tok : String)
    (post : String → Except String UpstreamResponse) (tasks : TaskStore)
    (task_id : String) (request : NewTaskRequest) (t : TaskEntry) (resp : UpstreamResponse)
    (htok : tok ≠ "")
    (hpost : post (buildPrompt request) = .ok resp)
    (hcode : resp.status_code ≠ 200)
    (hmem : storeGet tasks task_id = some t) :
    hfPipeline parse (some tok) post request = .error (.upstream resp.status_code resp.text) ∧
    hasSubstring (errMsg (.upstream resp.status_code resp.text)) (natToString resp.status_code) ∧
    hasSubstring (errMsg (.upstream resp.status_code resp.text)) resp.text ∧
    (resp.status_code = 503 →
      hasSubstring (errMsg (.upstream resp.status_code resp.text)) "503") ∧
    ∃ tasks', hf_optimize parse (some tok) post tasks task_id request = some tasks' ∧
      storeGet tasks' task_id = some { status := "FAILED", result :=
                                        some (errorDict (.upstream resp.status_code resp.text)) } := by
  have hpipe : hfPipeline parse (some tok) post request
      = .error (.upstream resp.status_code resp.text) := by
    unfold hfPipeline
    simp only []
    rw [if_neg htok, hpost]
    simp only []
    rw [if_pos hcode]
  have h1 : storeGet (setStatusT tasks task_id "FAILED") task_id
      = some { status := "FAILED", result := t.result } := by
    rw [setStatusT, storeGet_storeUpdT_self _ hmem]
  refine ⟨hpipe, ⟨"❌ HF API вернул ", ": " ++ resp.text, ?_⟩,
    ⟨"❌ HF API вернул " ++ natToString resp.status_code ++ ": ", "", ?_⟩, ?_,
    _, hf_optimize_err hpipe hmem, ?_⟩
  · simp [errMsg, String.append_assoc]
  · simp [errMsg, String.append_assoc]
  · intro h503
    refine ⟨"❌ HF API вернул ", ": " ++ resp.text, ?_⟩
    rw [h503]
    simp only [errMsg]
    rw [show natToString 503 = "503" from rfl]
    simp only [String.append_assoc]
  · rw [setResultT, storeGet_storeUpdT_self _ h1]

/-- Witness for C6: a concrete upstream 503 on a freshly created task; the
stored error contains "503" and the whole raw body. -/
theorem claim6_witness :
    hfPipeline (fun _ => Except.error "Expecting value: line 1 column 1 (char 0)")
        (some "hf_token_x")
        (fun _ => Except.ok { status_code := 503,
                              text := "<html>Service Unavailable</html>", body := none })
        { url := "s3://x", ddl := [], queries := [] }
      = .error (.upstream 503 "<html>Service Unavailable</html>") ∧
    hasSubstring (errMsg (.upstream 503 "<html>Service Unavailable</html>")) "503" ∧
    hasSubstring (errMsg (.upstream 503 "<html>Service Unavailable</html>"))
      "<html>Service Unavailable</html>" ∧
    ∃ tasks', hf_optimize (fun _ => Except.error "Expecting value: line 1 column 1 (char 0)")
        (some "hf_token_x")
        (fun _ => Except.ok { status_code := 503,
                              text := "<html>Service Unavailable</html>", body := none })
        [("t1", { status := "RUNNING", result := none })] "t1"
        { url := "s3://x", ddl := [], queries := [] }
      = some tasks' ∧
      storeGet tasks' "t1" =
        some { status := "FAILED",
               result := some (errorDict (.upstream 503 "<html>Service Unavailable</html>")) } := by
  obtain ⟨hpipe, _, hbody, h503, hstore⟩ :=
    claim6_upstream_error (fun _ => Except.error "Expecting value: line 1 column 1 (char 0)")
      "hf_token_x"
      (fun _ => Except.ok { status_code := 503,
                            text := "<html>Service Unavailable</html>", body := none })
      [("t1", { status := "RUNNING", result := none })] "t1"
      { url := "s3://x", ddl := [], queries := [] }
      { status := "RUNNING", result := none }
      { status_code := 503, text := "<html>Service Unavailable</html>", body := none }
      (by decide) rfl (by decide) rfl
  exact ⟨hpipe, h503 rfl, hbody, hstore⟩

/-- C7: with the credential absent from configuration the pipeline fails with
the configuration error whose text names `HF_TOKEN`, the outcome is the same
whatever the upstream oracle would have answered (no upstream call is made),
the task ends `FAILED` with that diagnostic stored, and task creation itself
is unaffected (the check runs per call inside the task runner, never at
process startup). -/
theorem claim7_missing_token (parse : String → Except String Json)
    (post : String → Except String UpstreamResponse) (tasks : TaskStore)
    (task_id : String) (request : NewTaskRequest) (t : TaskEntry)
    (hmem : storeGet tasks task_id = some t) :
    hfPipeline parse none post request = .error .noToken ∧
    (∀ post' : String → Except String UpstreamResponse,
      hfPipeline parse none post' request = hfPipeline parse none post request) ∧
    hasSubstring (errMsg .noToken) "HF_TOKEN" ∧
    (∃ tasks', hf_optimize parse none post tasks task_id request = some tasks' ∧
      storeGet tasks' task_id = some { status := "FAILED",
                                       result := some (errorDict .noToken) }) ∧
    (∀ (s : TaskStore) (id : String),
      storeGet (create_task s id) id = some { status := "RUNNING", result := none }) := by
  have h1 : storeGet (setStatusT tasks task_id "FAILED") task_id
      = some { status := "FAILED", result := t.result } := by
    rw [setStatusT, storeGet_storeUpdT_self _ hmem]
  refine ⟨rfl, fun post' => rfl, ⟨"", " не установлен", by decide⟩,
    ⟨_, hf_optimize_err rfl hmem, ?_⟩, ?_⟩
  · rw [setResultT, storeGet_storeUpdT_self _ h1]
  · intro s id
    unfold create_task
    exact storeGet_storeSet_self s id _

/-- Witness for C7: concrete run with `HF_TOKEN` unset on a freshly created
task. -/
theorem claim7_witness :
    hfPipeline (fun _ => Except.error "Expecting value: line 1 column 1 (char 0)") none
        (fun _ => Except.ok { status_code := 200, text := "", body := none })
        { url := "s3://x", ddl := [], queries := [] }
      = .error .noToken ∧
    hasSubstring (errMsg .noToken) "HF_TOKEN" ∧
    ∃ tasks', hf_optimize (fun _ => Except.error "Expecting value: line 1 column 1 (char 0)")
        none (fun _ => Except.ok { status_code := 200, text := "", body := none })
        [("t1", { status := "RUNNING", result := none })] "t1"
        { url := "s3://x", ddl := [], queries := [] }
      = some tasks' ∧
      storeGet tasks' "t1" = some { status := "FAILED",
                                    result := some (errorDict .noToken) } := by
  obtain ⟨hpipe, _, hname, hstore, _⟩ :=
    claim7_missing_token (fun _ => Except.error "Expecting value: line 1 column 1 (char 0)")
      (fun _ => Except.ok { status_code := 200, text := "", body := none })
      [("t1", { status := "RUNNING", result := none })] "t1"
      { url := "s3://x", ddl := [], queries := [] }
      { status := "RUNNING", result := none } rfl
  exact ⟨hpipe, hname, hstore⟩

/-- C8: the instruction sent upstream decomposes into the fixed template
around the newline-join of all DDL statements (in order) and the newline-join
of the previews of the first 3 queries only; every DDL statement occurs
verbatim inside the prompt, and the prompt does not depend on any query beyond
the third. -/
theorem claim8_prompt (request : NewTaskRequest) :
    buildPrompt request =
      promptHeader ++ joinLines (request.ddl.map DDLStatement.statement) ++
        promptQuerySection ++ joinLines ((request.queries.take 3).map queryLine) ++
        promptFooter ∧
    (∀ d : DDLStatement, d ∈ request.ddl →
      hasSubstring (buildPrompt request) d.statement) ∧
    (∀ request' : NewTaskRequest, request'.ddl = request.ddl →
      request'.queries.take 3 = request.queries.take 3 →
      buildPrompt request' = buildPrompt request) := by
  refine ⟨rfl, ?_, ?_⟩
  · intro d hd
    obtain ⟨a, b, hab⟩ := joinLines_mem_decomp (List.mem_map_of_mem DDLStatement.statement hd)
    refine ⟨promptHeader ++ a,
      b ++ promptQuerySection ++ joinLines ((request.queries.take 3).map queryLine) ++
        promptFooter, ?_⟩
    show promptHeader ++ joinLines (request.ddl.map DDLStatement.statement) ++
        promptQuerySection ++ joinLines ((request.queries.take 3).map queryLine) ++
        promptFooter = _
    rw [hab]
    simp [String.append_assoc]
  · intro request' hd hq
    unfold buildPrompt
    rw [hd, hq]

/-- Witness for C8: two concrete requests agreeing on DDL and on the first 3
queries but differing in the fourth produce the same prompt, and the single
DDL statement occurs in it. -/
theorem claim8_witness :
    buildPrompt
      { url := "s3://a", ddl := [{ statement := "CREATE TABLE t(a int)" }],
        queries := [{ queryid := "q1", query := "S1", runquantity := 1 },
                    { queryid := "q2", query := "S2", runquantity := 2 },
                    { queryid := "q3", query := "S3", runquantity := 3 },
                    { queryid := "q5", query := "DIFFERENT", runquantity := 99 }] } =
    buildPrompt
      { url := "s3://a", ddl := [{ statement := "CREATE TABLE t(a int)" }],
        queries := [{ queryid := "q1", query := "S1", runquantity := 1 },
                    { queryid := "q2", query := "S2", runquantity := 2 },
                    { queryid := "q3", query := "S3", runquantity := 3 },
                    { queryid := "q4", query := "S4", runquantity := 4 }] } ∧
    hasSubstring
      (buildPrompt
        { url := "s3://a", ddl := [{ statement := "CREATE TABLE t(a int)" }],
          queries := [{ queryid := "q1", query := "S1", runquantity := 1 },
                      { queryid := "q2", query := "S2", runquantity := 2 },
                      { queryid := "q3", query := "S3", runquantity := 3 },
                      { queryid := "q4", query := "S4", runquantity := 4 }] })
      "CREATE TABLE t(a int)" := by
  obtain ⟨_, hsub, hinv⟩ :=
    claim8_prompt
      { url := "s3://a", ddl := [{ statement := "CREATE TABLE t(a int)" }],
        queries := [{ queryid := "q1", query := "S1", runquantity := 1 },
                    { queryid := "q2", query := "S2", runquantity := 2 },
                    { queryid := "q3", query := "S3", runquantity := 3 },
                    { queryid := "q4", query := "S4", runquantity := 4 }] }
  refine ⟨hinv _ rfl rfl, hsub { statement := "CREATE TABLE t(a int)" } ?_⟩
  simp

/-- Counterexample to C3 as stated: the store insertion of `create_task` is a
plain dict assignment with no existence check; on an id that is already
present (here with a terminal `DONE` entry) it silently overwrites the entry
back to `RUNNING` with `result` unset — it does not fail. -/
theorem claim3_counterexample :
    storeGet [("a", { status := "DONE", result := some (Json.obj []) })] "a"
      = some { status := "DONE", result := some (Json.obj []) } ∧
    create_task [("a", { status := "DONE", result := some (Json.obj []) })] "a"
      = [("a", { status := "RUNNING", result := none })] ∧
    storeGet (create_task [("a", { status := "DONE", result := some (Json.obj []) })] "a") "a"
      = some { status := "RUNNING", result := none } :=
  ⟨rfl, rfl, rfl⟩

/-- C3 amended: `create_task`'s store insertion unconditionally binds the id
to a fresh `RUNNING` entry with `result` unset — overwriting any existing
entry rather than failing — and leaves every other id untouched; uniqueness
of tasks rests solely on the 128-bit random id generation, not on any check
in the store. -/
theorem claim3_amended (tasks : TaskStore) (task_id : String) :
    storeGet (create_task tasks task_id) task_id
      = some { status := "RUNNING", result := none } ∧
    (∀ other, other ≠ task_id →
      storeGet (create_task tasks task_id) other = storeGet tasks other) := by
  constructor
  · unfold create_task
    exact storeGet_storeSet_self tasks task_id _
  · intro other hne
    unfold create_task
    exact storeGet_storeSet_ne tasks task_id _ other hne

/-- Witness for the amended C3: creating "a" in a store already holding "b"
registers "a" as `RUNNING` and leaves "b" unchanged. -/
theorem claim3_witness :
    storeGet (create_task [("b", { status := "DONE", result := some (Json.obj []) })] "a") "a"
      = some { status := "RUNNING", result := none } ∧
    storeGet (create_task [("b", { status := "DONE", result := some (Json.obj []) })] "a") "b"
      = storeGet [("b", { status := "DONE", result := some (Json.obj []) })] "b" := by
  obtain ⟨h1, h2⟩ := claim3_amended [("b", { status := "DONE", result := some (Json.obj []) })] "a"
  exact ⟨h1, h2 "b" (by decide)⟩

/-- Counterexample to C4 as stated: a generated text wrapped in a Markdown
fence whose opening marker is the bare "```" (not "```json"), around JSON that
is both valid (the parse oracle accepts the enclosed text) and schema-valid,
is not stripped by the code — `startswith("```json")` is false — so parsing is
attempted on the still-fenced text, fails, and the task ends `FAILED` instead
of reaching `DONE`. -/
theorem claim4_counterexample :
    let inner := "\x7b\"ddl\": [], \"migrations\": [], \"queries\": []\x7d"
    let fenced := "```\n" ++ inner ++ "\n```"
    let good := Json.obj [("ddl", Json.arr []), ("migrations", Json.arr []),
                          ("queries", Json.arr [])]
    let parse : String → Except String Json :=
      fun s => if s = inner then .ok good
               else .error "Expecting value: line 1 column 1 (char 0)"
    let post : String → Except String UpstreamResponse :=
      fun _ => .ok { status_code := 200, text := "",
                     body := some (.arr [Json.obj [("generated_text", Json.str fenced)]]) }
    pyStartsWith fenced "```" = true ∧
    parse inner = .ok good ∧
    validateStructure good = .ok good ∧
    hf_optimize parse (some "hf_token_x") post
        [("t1", { status := "RUNNING", result := none })] "t1"
        { url := "s3://x", ddl := [], queries := [] }
      = some [("t1", { status := "FAILED",
                       result := some (errorDict
                         (.badJson "Expecting value: line 1 column 1 (char 0)")) })] ∧
    get_status [("t1", { status := "FAILED",
                         result := some (errorDict
                           (.badJson "Expecting value: line 1 column 1 (char 0)")) })] "t1"
      = .ok "FAILED" :=
  ⟨rfl, rfl, rfl, rfl, rfl⟩

/-- C4 amended: the code strips only fences whose opening marker is exactly
"```json": whenever the (whitespace-trimmed) generated text starts with
"```json", the client drops those 7 characters, truncates at the next "```",
trims, and parses that enclosed text; if the enclosed text parses as a
schema-valid structure the task reaches `DONE` with it.  Fences with any
other marker (e.g. the bare "```") are not stripped. -/
theorem claim4_amended (parse : String → Except String Json) (tok : String)
    (post : String → Except String UpstreamResponse) (tasks : TaskStore)
    (task_id : String) (request : NewTaskRequest) (t : TaskEntry)
    (resp : UpstreamResponse) (generated : String) (r : Json)
    (htok : tok ≠ "")
    (hpost : post (buildPrompt request) = .ok resp)
    (hcode : resp.status_code = 200)
    (henv : extractGeneratedText resp.body = some generated)
    (hfence : pyStartsWith (pyStrip generated) "```json" = true)
    (hparse : parse (stripMarkdownFence (pyStrip generated)) = .ok r)
    (hvalid : validateStructure r = .ok r)
    (hmem : storeGet tasks task_id = some t) :
    stripMarkdownFence (pyStrip generated) =
      pyStrip (String.mk (takeUntilSep ("```".data) ((pyDrop (pyStrip generated) 7).data))) ∧
    hfPipeline parse (some tok) post request = .ok r ∧
    ∃ tasks', hf_optimize parse (some tok) post tasks task_id request = some tasks' ∧
      storeGet tasks' task_id = some { status := "DONE", result := some r } ∧
      get_result tasks' task_id = .ok (some r) := by
  have h200 : ¬ (resp.status_code ≠ 200) := fun h => h hcode
  have hpipe : hfPipeline parse (some tok) post request = .ok r := by
    unfold hfPipeline
    simp only []
    rw [if_neg htok, hpost]
    simp only []
    rw [if_neg h200, henv]
    simp only []
    rw [hparse]
    simp only []
    exact hvalid
  have h1 : storeGet (setResultT tasks task_id (some r)) task_id
      = some { status := t.status, result := some r } := by
    rw [setResultT, storeGet_storeUpdT_self _ hmem]
  have h2 : storeGet (setStatusT (setResultT tasks task_id (some r)) task_id "DONE") task_id
      = some { status := "DONE", result := some r } := by
    rw [setStatusT, storeGet_storeUpdT_self _ h1]
  refine ⟨?_, hpipe, _, hf_optimize_ok hpipe hmem, h2, ?_⟩
  · unfold stripMarkdownFence
    rw [if_pos hfence]
  · unfold get_result
    rw [h2]
    rfl

/-- Witness for the amended C4: a concrete "```json"-fenced, schema-valid
generated text ends in `DONE` with the enclosed parsed object stored. -/
theorem claim4_witness :
    ∃ tasks', hf_optimize
        (fun s => if s = "\x7b\"ddl\": [], \"migrations\": [], \"queries\": []\x7d" then
            Except.ok (Json.obj [("ddl", Json.arr []), ("migrations", Json.arr []),
                                 ("queries", Json.arr [])])
          else Except.error "Expecting value: line 1 column 1 (char 0)")
        (some "hf_token_x")
        (fun _ => Except.ok
          { status_code := 200, text := "",
            body := some (.arr [Json.obj [("generated_text",
              Json.str ("```json\n\x7b\"ddl\": [], \"migrations\": [], \"queries\": []\x7d\n```"))]]) })
        [("t1", { status := "RUNNING", result := none })] "t1"
        { url := "s3://x", ddl := [], queries := [] }
      = some tasks' ∧
      storeGet tasks' "t1" =
        some { status := "DONE",
               result := some (Json.obj [("ddl", Json.arr []), ("migrations", Json.arr []),
                                         ("queries", Json.arr [])]) } ∧
      get_result tasks' "t1" = .ok (some (Json.obj [("ddl", Json.arr []),
        ("migrations", Json.arr []), ("queries", Json.arr [])])) := by
  obtain ⟨_, _, tasks', hrun, hget, hres⟩ :=
    claim4_amended
      (fun s => if s = "\x7b\"ddl\": [], \"migrations\": [], \"queries\": []\x7d" then
          Except.ok (Json.obj [("ddl", Json.arr []), ("migrations", Json.arr []),
                               ("queries", Json.arr [])])
        else Except.error "Expecting value: line 1 column 1 (char 0)")
      "hf_token_x"
      (fun _ => Except.ok
        { status_code := 200, text := "",
          body := some (.arr [Json.obj [("generated_text",
            Json.str ("```json\n\x7b\"ddl\": [], \"migrations\": [], \"queries\": []\x7d\n```"))]]) })
      [("t1", { status := "RUNNING", result := none })] "t1"
      { url := "s3://x", ddl := [], queries := [] }
      { status := "RUNNING", result := none }
      { status_code := 200, text := "",
        body := some (.arr [Json.obj [("generated_text",
          Json.str ("```json\n\x7b\"ddl\": [], \"migrations\": [], \"queries\": []\x7d\n```"))]]) }
      ("```json\n\x7b\"ddl\": [], \"migrations\": [], \"queries\": []\x7d\n```")
      (Json.obj [("ddl", Json.arr []), ("migrations", Json.arr []), ("queries", Json.arr [])])
      (by decide) rfl rfl rfl rfl rfl rfl rfl
  exact ⟨tasks', hrun, hget, hres⟩

/-! Helper lemmas for the validation claims. -/

theorem validateStructure_ok {j r : Json} (h : validateStructure j = .ok r) :
    r = j ∧ (∃ fields, j = .obj fields) ∧
    isJsonList (jsonGet j "ddl") = true ∧
    isJsonList (jsonGet j "migrations") = true ∧
    isJsonList (jsonGet j "queries") = true := by
  cases j with
  | obj fields =>
    unfold validateStructure at h
    simp only [] at h
    split at h
    next hddl => exact absurd h (by simp)
    next hddl =>
      split at h
      next hmig => exact absurd h (by simp)
      next hmig =>
        split at h
        next hq => exact absurd h (by simp)
        next hq =>
          injection h with hr
          subst hr
          exact ⟨rfl, ⟨fields, rfl⟩, not_not.mp hddl, not_not.mp hmig, not_not.mp hq⟩
  | null => simp [validateStructure] at h
  | bool b => simp [validateStructure] at h
  | num n => simp [validateStructure] at h
  | str s => simp [validateStructure] at h
  | arr elems => simp [validateStructure] at h

theorem hfPipeline_ok_inv {parse : String → Except String Json} {hfToken : Option String}
    {post : String → Except String UpstreamResponse} {request : NewTaskRequest} {r : Json}
    (h : hfPipeline parse hfToken post request = .ok r) :
    validateStructure r = .ok r := by
  unfold hfPipeline at h
  simp only [] at h
  cases hfToken with
  | none => simp at h
  | some tok =>
    simp only [] at h
    split at h
    · simp at h
    · cases hpost : post (buildPrompt request) with
      | error diag => rw [hpost] at h; simp at h
      | ok response =>
        rw [hpost] at h
        simp only [] at h
        split at h
        · simp at h
        · cases henv : extractGeneratedText response.body with
          | none => rw [henv] at h; simp at h
          | some generated =>
            rw [henv] at h
            simp only [] at h
            cases hparse : parse (stripMarkdownFence (pyStrip generated)) with
            | error diag => rw [hparse] at h; simp at h
            | ok result =>
              rw [hparse] at h
              simp only [] at h
              obtain ⟨hr, _, _⟩ := validateStructure_ok h
              subst hr
              exact h

/-- Counterexample to C9 as stated: the structure checks only require the
three fields to be lists and accept any additional fields, so an upstream
object carrying a fourth field is validated, stored as the `DONE` result, and
returned by `get_result` — the returned structure does not have "exactly" the
three fields `ddl`, `migrations`, `queries`. -/
theorem claim9_counterexample :
    let extra := Json.obj [("ddl", Json.arr []), ("migrations", Json.arr []),
                           ("queries", Json.arr []), ("note", Json.str "extra field")]
    hf_optimize (fun _ => Except.ok extra) (some "hf_token_x")
        (fun _ => Except.ok
          { status_code := 200, text := "",
            body := some (.arr [Json.obj [("generated_text", Json.str "x")]]) })
        [("t1", { status := "RUNNING", result := none })] "t1"
        { url := "s3://x", ddl := [], queries := [] }
      = some [("t1", { status := "DONE", result := some extra })] ∧
    get_result [("t1", { status := "DONE", result := some extra })] "t1" = .ok (some extra) ∧
    jsonGet extra "note" = some (Json.str "extra field") :=
  ⟨rfl, rfl, rfl⟩

/-- C9 amended: every successfully produced result is a dict containing the
three fields `ddl`, `migrations`, `queries`, each holding a (possibly empty)
list — extra fields, if present, are preserved rather than rejected — and on
`DONE` the result operation returns exactly what the pipeline produced; a
dict-shaped parsed structure lacking one of the three fields as a list is
rejected with the `ValueError` naming the first missing/malformed field; a
non-dict parsed value is rejected with the `AttributeError` of `.get`; and a
structure rejected by validation makes the pipeline fail (so it is never
stored as a `DONE` result). -/
theorem claim9_amended :
    (∀ (parse : String → Except String Json) (hfToken : Option String)
      (post : String → Except String UpstreamResponse) (request : NewTaskRequest) (r : Json),
      hfPipeline parse hfToken post request = .ok r →
      (∃ fields, r = .obj fields) ∧
      isJsonList (jsonGet r "ddl") = true ∧
      isJsonList (jsonGet r "migrations") = true ∧
      isJsonList (jsonGet r "queries") = true) ∧
    (∀ (parse : String → Except String Json) (hfToken : Option String)
      (post : String → Except String UpstreamResponse) (tasks : TaskStore)
      (task_id : String) (request : NewTaskRequest) (t : TaskEntry) (r : Json),
      storeGet tasks task_id = some t →
      hfPipeline parse hfToken post request = .ok r →
      ∃ tasks', hf_optimize parse hfToken post tasks task_id request = some tasks' ∧
        storeGet tasks' task_id = some { status := "DONE", result := some r } ∧
        get_result tasks' task_id = .ok (some r)) ∧
    (∀ (fields : List (String × Json)) (e : PipeError),
      validateStructure (.obj fields) = .error e →
      ∃ f, e = .missingField f ∧ (f = "ddl" ∨ f = "migrations" ∨ f = "queries") ∧
        isJsonList (jsonGet (.obj fields) f) = false ∧ hasSubstring (errMsg e) f) ∧
    (∀ j : Json, (∀ fields, j ≠ .obj fields) →
      ∃ ty, validateStructure j = .error (.badGet ty)) ∧
    (∀ (parse : String → Except String Json) (tok : String)
      (post : String → Except String UpstreamResponse) (request : NewTaskRequest)
      (resp : UpstreamResponse) (generated : String) (r : Json) (e : PipeError),
      tok ≠ "" → post (buildPrompt request) = .ok resp → resp.status_code = 200 →
      extractGeneratedText resp.body = some generated →
      parse (stripMarkdownFence (pyStrip generated)) = .ok r →
      validateStructure r = .error e →
      hfPipeline parse (some tok) post request = .error e) := by
  refine ⟨?_, ?_, ?_, ?_, ?_⟩
  · intro parse hfToken post request r h
    obtain ⟨_, hobj, hd, hm, hq⟩ := validateStructure_ok (hfPipeline_ok_inv h)
    exact ⟨hobj, hd, hm, hq⟩
  · intro parse hfToken post tasks task_id request t r hmem hok
    have h1 : storeGet (setResultT tasks task_id (some r)) task_id
        = some { status := t.status, result := some r } := by
      rw [setResultT, storeGet_storeUpdT_self _ hmem]
    have h2 : storeGet (setStatusT (setResultT tasks task_id (some r)) task_id "DONE") task_id
        = some { status := "DONE", result := some r } := by
      rw [setStatusT, storeGet_storeUpdT_self _ h1]
    refine ⟨_, hf_optimize_ok hok hmem, h2, ?_⟩
    unfold get_result
    rw [h2]
    rfl
  · intro fields e h
    unfold validateStructure at h
    simp only [] at h
    split at h
    next hddl =>
      injection h with he
      subst he
      refine ⟨"ddl", rfl, .inl rfl, Bool.eq_false_iff.mpr hddl, "Ответ не содержит списка ", "", ?_⟩
      simp [errMsg]
    next hddl =>
      split at h
      next hmig =>
        injection h with he
        subst he
        refine ⟨"migrations", rfl, .inr (.inl rfl), Bool.eq_false_iff.mpr hmig,
          "Ответ не содержит списка ", "", ?_⟩
        simp [errMsg]
      next hmig =>
        split at h
        next hq =>
          injection h with he
          subst he
          refine ⟨"queries", rfl, .inr (.inr rfl), Bool.eq_false_iff.mpr hq,
            "Ответ не содержит списка ", "", ?_⟩
          simp [errMsg]
        next hq => exact absurd h (by simp)
  · intro j hne
    cases j with
    | obj fields => exact absurd rfl (hne fields)
    | null => exact ⟨"NoneType", rfl⟩
    | bool b => exact ⟨"bool", rfl⟩
    | num n => exact ⟨"int", rfl⟩
    | str s => exact ⟨"str", rfl⟩
    | arr elems => exact ⟨"list", rfl⟩
  · intro parse tok post request resp generated r e htok hpost hcode henv hparse hval
    have h200 : ¬ (resp.status_code ≠ 200) := fun h => h hcode
    unfold hfPipeline
    simp only []
    rw [if_neg htok, hpost]
    simp only []
    rw [if_neg h200, henv]
    simp only []
    rw [hparse]
    simp only []
    exact hval

/-- Witness for the amended C9: a successful concrete run with the three-list
object (validated, stored, returned), a dict missing `ddl` rejected naming
`ddl`, and a non-dict (a bare list) rejected with the attribute error. -/
theorem claim9_witness :
    ((∃ fields, Json.obj [("ddl", Json.arr []), ("migrations", Json.arr []),
        ("queries", Json.arr [])] = Json.obj fields) ∧
      isJsonList (jsonGet (Json.obj [("ddl", Json.arr []), ("migrations", Json.arr []),
        ("queries", Json.arr [])]) "ddl") = true ∧
      isJsonList (jsonGet (Json.obj [("ddl", Json.arr []), ("migrations", Json.arr []),
        ("queries", Json.arr [])]) "migrations") = true ∧
      isJsonList (jsonGet (Json.obj [("ddl", Json.arr []), ("migrations", Json.arr []),
        ("queries", Json.arr [])]) "queries") = true) ∧
    (∃ tasks', hf_optimize
        (fun _ => Except.ok (Json.obj [("ddl", Json.arr []), ("migrations", Json.arr []),
          ("queries", Json.arr [])]))
        (some "hf_token_x")
        (fun _ => Except.ok
          { status_code := 200, text := "",
            body := some (.arr [Json.obj [("generated_text", Json.str "x")]]) })
        [("t1", { status := "RUNNING", result := none })] "t1"
        { url := "s3://x", ddl := [], queries := [] }
      = some tasks' ∧
      storeGet tasks' "t1" =
        some { status := "DONE",
               result := some (Json.obj [("ddl", Json.arr []), ("migrations", Json.arr []),
                 ("queries", Json.arr [])]) } ∧
      get_result tasks' "t1" = .ok (some (Json.obj [("ddl", Json.arr []),
        ("migrations", Json.arr []), ("queries", Json.arr [])]))) ∧
    (∃ f, PipeError.missingField "ddl" = PipeError.missingField f ∧
      (f = "ddl" ∨ f = "migrations" ∨ f = "queries") ∧
      isJsonList (jsonGet (Json.obj [("migrations", Json.arr []),
        ("queries", Json.arr [])]) f) = false ∧
      hasSubstring (errMsg (PipeError.missingField "ddl")) f) ∧
    (∃ ty, validateStructure (Json.arr []) = .error (.badGet ty)) := by
  obtain ⟨h1, h2, h3, h4, _⟩ := claim9_amended
  refine ⟨?_, ?_, ?_, ?_⟩
  · exact h1 (fun _ => Except.ok (Json.obj [("ddl", Json.arr []), ("migrations", Json.arr []),
      ("queries", Json.arr [])])) (some "hf_token_x")
      (fun _ => Except.ok
        { status_code := 200, text := "",
          body := some (.arr [Json.obj [("generated_text", Json.str "x")]]) })
      { url := "s3://x", ddl := [], queries := [] }
      (Json.obj [("ddl", Json.arr []), ("migrations", Json.arr []), ("queries", Json.arr [])])
      rfl
  · exact h2 (fun _ => Except.ok (Json.obj [("ddl", Json.arr []), ("migrations", Json.arr []),
      ("queries", Json.arr [])])) (some "hf_token_x")
      (fun _ => Except.ok
        { status_code := 200, text := "",
          body := some (.arr [Json.obj [("generated_text", Json.str "x")]]) })
      [("t1", { status := "RUNNING", result := none })] "t1"
      { url := "s3://x", ddl := [], queries := [] }
      { status := "RUNNING", result := none }
      (Json.obj [("ddl", Json.arr []), ("migrations", Json.arr []), ("queries", Json.arr [])])
      rfl rfl
  · exact h3 [("migrations", Json.arr []), ("queries", Json.arr [])]
      (.missingField "ddl") rfl
  · exact h4 (Json.arr []) (fun fields h => Json.noConfusion h)

end LakehouseOpt
